import Mathlib

/-!
Verification of the Pulse Scoring Engine (`PulseScoringService`).

This file gives a shallow embedding of the scoring module: the seven
category scorers, the confidence/coverage evaluator, the
insufficient-data gate, the weight-renormalizing aggregator and the
recommendation/risk/strength synthesis, together with theorems that
settle the behavioral claims about them.

Modelling conventions:
* JavaScript numbers are modelled as `ℚ` (integer-valued fields as `ℤ`/`ℕ`);
  `Math.round` becomes `jsRound`, `Math.round(x*100)/100` becomes `round2`.
* Optional/nullable inputs become `Option`; fields whose absence the code
  immediately collapses with `|| 0` (account age, review count, rating,
  response rate) are carried as plain numbers with `0` meaning "missing",
  which is exactly how the code treats them.
* The regular expressions in the red-flag analyzer are alternations of
  literal substrings plus the two patterns `call.*\d{10}` / `text.*\d{10}`;
  they are modelled by executable substring search on character lists.
* The diagnostic `breakdown` payloads are not modelled except for the
  red-flag list of the Behavioral Red Flags scorer, which is the one
  breakdown the specification makes claims about.
-/

namespace PulseScoring

/-- Model of JavaScript `Math.round`: round half toward positive infinity. -/
def jsRound (x : ℚ) : ℤ := ⌊x + 1/2⌋

/-- Model of `Math.round(x * 100) / 100` (rounding to two decimals). -/
def round2 (x : ℚ) : ℚ := (jsRound (x * 100) : ℚ) / 100

/-- Model of JavaScript `toLowerCase` as a character-wise map (the scanned
texts and keywords are ASCII, where the two coincide). -/
def toLowerStr (s : String) : String := ⟨s.data.map Char.toLower⟩

/-- Model of JavaScript `toUpperCase` as a character-wise map. -/
def toUpperStr (s : String) : String := ⟨s.data.map Char.toUpper⟩

/-- Character-list matcher: the needle matches at the front of the haystack. -/
def matchesAt : List Char → List Char → Bool
  | [], _ => true
  | _ :: _, [] => false
  | c :: cs, d :: ds => c == d && matchesAt cs ds

/-- Substring search: the needle occurs somewhere inside the haystack. -/
def findSub (n : List Char) : List Char → Bool
  | [] => matchesAt n []
  | d :: t => matchesAt n (d :: t) || findSub n t

/-- String containment, the model of JavaScript `String.prototype.includes`
and of matching a regex alternative that is a literal substring. -/
def strContains (s pat : String) : Bool := findSub pat.data s.data

/-- Ten consecutive decimal digits start at the head of the list
(the regex fragment `\d\x7b10\x7d`). -/
def tenDigitsAt (l : List Char) : Bool :=
  (l.take 10).length == 10 && (l.take 10).all (fun c => 48 ≤ c.toNat && c.toNat ≤ 57)

/-- The regex fragment `.*\d\x7b10\x7d`: skip any non-newline characters,
then read ten consecutive digits. -/
def dotStarDigits : List Char → Bool
  | [] => tenDigitsAt []
  | c :: t => tenDigitsAt (c :: t) || (c != '\n' && dotStarDigits t)

/-- The regex pattern `key.*\d\x7b10\x7d` tested anywhere in the haystack
(used for `call.*\d\x7b10\x7d` and `text.*\d\x7b10\x7d`). -/
def seqKeyDigits (key : List Char) : List Char → Bool
  | [] => matchesAt key [] && dotStarDigits []
  | c :: t => (matchesAt key (c :: t) && dotStarDigits ((c :: t).drop key.length)) || seqKeyDigits key t

/-- Code points matched by the emoji/pictograph character class of the
red-flag analyzer (`u`-flagged regex ranges). -/
def isEmojiChar (c : Char) : Bool :=
  (0x1F600 ≤ c.toNat && c.toNat ≤ 0x1F64F) ||
  (0x1F300 ≤ c.toNat && c.toNat ≤ 0x1F5FF) ||
  (0x1F680 ≤ c.toNat && c.toNat ≤ 0x1F6FF) ||
  (0x1F700 ≤ c.toNat && c.toNat ≤ 0x1F77F) ||
  (0x1F780 ≤ c.toNat && c.toNat ≤ 0x1F7FF) ||
  (0x1F800 ≤ c.toNat && c.toNat ≤ 0x1F8FF) ||
  (0x1F900 ≤ c.toNat && c.toNat ≤ 0x1F9FF) ||
  (0x1FA00 ≤ c.toNat && c.toNat ≤ 0x1FA6F) ||
  (0x1FA70 ≤ c.toNat && c.toNat ≤ 0x1FAFF) ||
  (0x2600 ≤ c.toNat && c.toNat ≤ 0x26FF) ||
  (0x2700 ≤ c.toNat && c.toNat ≤ 0x27BF)

/-- Marketplace-derived numeric/profile signals for a seller.
Fields the source reads through `?.` and collapses with `|| 0`
are plain numbers with `0` meaning "missing". -/
structure MarketplaceData where
  verificationStatus : String
  accountAge : ℤ
  lastSeen : Option ℤ
  responseRate : ℤ
  totalReviews : ℕ
  avgRating : ℚ
deriving DecidableEq

/-- Profile fields of a seller (`profileData` in the source; the source
field `bio` is called `biography` here). -/
structure ProfileData where
  profilePicture : Bool
  location : String
  biography : String
deriving DecidableEq

/-- Canonical seller input to the scoring engine. -/
structure SellerData where
  marketplaceData : MarketplaceData
  profileData : ProfileData
deriving DecidableEq

/-- One recent listing. `descriptionLength` is the extraction-supplied
length field the source reads alongside `description` itself. -/
structure Listing where
  title : String
  price : String
  hasPrice : Option Bool
  imageCount : ℤ
  description : String
  descriptionLength : ℕ
deriving DecidableEq

/-- Community feedback from platform users: endorsement and flag counts
(the source takes `.length` of the corresponding arrays). -/
structure VeribleFeedback where
  endorsements : ℕ
  flags : ℕ
deriving DecidableEq

/-- Envelope returned by every category scorer: a numeric score or `none`,
plus the availability marker. -/
structure CategoryScore where
  score : Option ℚ
  available : Bool
deriving DecidableEq

/-- One entry of the Behavioral Red Flags breakdown: 1-based listing index,
flag description, optional emoji count, penalty applied. -/
structure RedFlag where
  listing : ℕ
  flag : String
  count : Option ℕ
  penalty : ℤ
deriving DecidableEq

/-- One recommendation entry (`priority` is absent on the advisory attached
to the insufficient-data result). -/
structure Recommendation where
  rtype : String
  priority : Option String
  message : String
  action : String
deriving DecidableEq

/-- One identified risk factor. -/
structure RiskFactor where
  category : String
  severity : String
  issue : String
deriving DecidableEq

/-- One identified strength area. -/
structure StrengthArea where
  category : String
  score : Option ℚ
  message : String
deriving DecidableEq

/-- The seven category scores, in the declaration order of the source's
`categories` object. -/
structure Categories where
  verificationIdentity : CategoryScore
  accountMaturity : CategoryScore
  listingCompleteness : CategoryScore
  activityRecency : CategoryScore
  engagement : CategoryScore
  communityFeedback : CategoryScore
  behavioralRedFlags : CategoryScore
deriving DecidableEq

/-- Confidence metrics returned by `calculateConfidence`. -/
structure ConfidenceMetrics where
  confidence : ℚ
  coverage : ℚ
  recency : ℚ
  consistency : ℚ
  availableCategories : ℕ
  totalCategories : ℕ
  missingCategories : List String
deriving DecidableEq

/-- Result of `calculatePulseScore`: either the insufficient-data outcome
(which carries no pulse score) or the full success payload. -/
inductive ScoringResult where
  | insufficientData (confidence coverage : ℚ) (availableCategories : ℕ)
      (missingCategories : List String) (recommendations : List Recommendation)
  | success (pulseScore : ℤ) (confidence : ℚ) (confidenceLevel trustLevel : String)
      (categories : Categories) (categoryWeights : List (String × ℤ))
      (confidenceMetrics : ConfidenceMetrics) (recommendations : List Recommendation)
      (riskFactors : List RiskFactor) (strengthAreas : List StrengthArea)
deriving DecidableEq

/-- Status string of a scoring result (`status` field in the source). -/
def ScoringResult.statusOf : ScoringResult → String
  | .insufficientData _ _ _ _ _ => "insufficient_data"
  | .success _ _ _ _ _ _ _ _ _ _ => "success"

/-- Category weights of `categoryWeights` on `PulseScoringService`
(0.25 / 0.15 / 0.15 / 0.10 / 0.10 / 0.10 / 0.15, keyed by category name). -/
def categoryWeight (key : String) : ℚ :=
  if key = "verificationIdentity" then 1/4
  else if key = "accountMaturity" then 3/20
  else if key = "listingCompleteness" then 3/20
  else if key = "activityRecency" then 1/10
  else if key = "engagement" then 1/10
  else if key = "communityFeedback" then 1/10
  else if key = "behavioralRedFlags" then 3/20
  else 0

/-- Lowercased verification tier with the empty string collapsing to
`"unverified"` (`?.toLowerCase() || 'unverified'` in the source). -/
def verificationTier (s : SellerData) : String :=
  if toLowerStr s.marketplaceData.verificationStatus = "" then "unverified"
  else toLowerStr s.marketplaceData.verificationStatus

/-- Truthiness of the location field: present and not the placeholder. -/
def hasLocation (s : SellerData) : Bool :=
  s.profileData.location != "" && s.profileData.location != "Not specified"

/-- Base verification score: ID 100 / phone 70 / email 50 / otherwise 0,
with the source's substring and equality alternatives. -/
def viBaseScore (s : SellerData) : ℚ :=
  if strContains (verificationTier s) "id" ∨ verificationTier s = "id-verified" ∨
      verificationTier s = "identity verified" then 100
  else if strContains (verificationTier s) "phone" ∨ verificationTier s = "phone-verified" then 70
  else if strContains (verificationTier s) "email" ∨ verificationTier s = "email-verified" then 50
  else 0

/-- Verification score after the profile-photo bonus (+10, capped at 100). -/
def viPhotoScore (s : SellerData) : ℚ :=
  if s.profileData.profilePicture then min 100 (viBaseScore s + 10) else viBaseScore s

/-- Verification score after the location bonus (+10, capped at 100). -/
def viLocationScore (s : SellerData) : ℚ :=
  if hasLocation s then min 100 (viPhotoScore s + 10) else viPhotoScore s

/-- Category 1: Verification and Identity; always available. -/
def calculateVerificationIdentityScore (s : SellerData) : CategoryScore :=
  ⟨some (min 100 (viLocationScore s)), true⟩

/-- Category 2: Account Maturity; age 0 means unavailable, otherwise tiers
over months (12+ gives 100, 6+ gives 70, 3+ gives 40, else 10). -/
def calculateAccountMaturityScore (s : SellerData) : CategoryScore :=
  if s.marketplaceData.accountAge = 0 then ⟨none, false⟩
  else if 12 ≤ s.marketplaceData.accountAge then ⟨some 100, true⟩
  else if 6 ≤ s.marketplaceData.accountAge then ⟨some 70, true⟩
  else if 3 ≤ s.marketplaceData.accountAge then ⟨some 40, true⟩
  else ⟨some 10, true⟩

/-- Points of a single listing in the Listing Completeness scorer: title 5,
price 10 (non-empty and not explicitly marked priceless), three or more
photos 15 (one or two photos 5), description of 100+ characters 20. -/
def listingScore (l : Listing) : ℚ :=
  (if l.title ≠ "" then 5 else 0) +
  (if l.price ≠ "" ∧ l.hasPrice ≠ some false then 10 else 0) +
  (if 3 ≤ l.imageCount then 15 else if 1 ≤ l.imageCount then 5 else 0) +
  (if l.description ≠ "" ∧ 100 ≤ l.descriptionLength then 20 else 0)

/-- Category 3: Listing Completeness over the first five listings: average
the per-listing totals, scale by `avg/50*100`, cap at 100 and round;
unavailable with zero listings. -/
def calculateListingCompletenessScore (recentListings : List Listing) (_sellerData : SellerData) : CategoryScore :=
  if recentListings = [] then ⟨none, false⟩
  else
    ⟨some ((jsRound (min 100 ((((recentListings.take 5).map listingScore).sum /
        (((recentListings.take 5).length : ℕ) : ℚ)) / 50 * 100)) : ℤ) : ℚ), true⟩

/-- Category 4: Activity and Recency: tiers over days since last seen
(7/30/60 boundaries), flat 50 when only listings prove activity,
unavailable otherwise. -/
def calculateActivityRecencyScore (s : SellerData) (recentListings : List Listing) : CategoryScore :=
  match s.marketplaceData.lastSeen with
  | some days =>
    if days ≤ 7 then ⟨some 100, true⟩
    else if days ≤ 30 then ⟨some 70, true⟩
    else if days ≤ 60 then ⟨some 40, true⟩
    else ⟨some 10, true⟩
  | none =>
    if recentListings ≠ [] then ⟨some 50, true⟩ else ⟨none, false⟩

/-- Category 5: Engagement: response-rate tiers (90/80/60 boundaries, else
30); zero or missing response rate means unavailable. -/
def calculateEngagementScore (s : SellerData) : CategoryScore :=
  if s.marketplaceData.responseRate = 0 then ⟨none, false⟩
  else if 90 ≤ s.marketplaceData.responseRate then ⟨some 100, true⟩
  else if 80 ≤ s.marketplaceData.responseRate then ⟨some 80, true⟩
  else if 60 ≤ s.marketplaceData.responseRate then ⟨some 60, true⟩
  else ⟨some 30, true⟩

/-- Base tier of Community Feedback from marketplace-native signals. -/
def cfBaseScore (s : SellerData) : ℚ :=
  if 10 ≤ s.marketplaceData.totalReviews ∨ 9/2 ≤ s.marketplaceData.avgRating then 100
  else if 5 ≤ s.marketplaceData.totalReviews then 70
  else if 1 ≤ s.marketplaceData.totalReviews then 40
  else 0

/-- Net community feedback: endorsements minus flags. -/
def cfNet (fb : VeribleFeedback) : ℤ := (fb.endorsements : ℤ) - (fb.flags : ℤ)

/-- Community-feedback adjustment of the base tier: positive net adds
`net * 5` capped at 100, negative net adds `net * 10` floored at 0. -/
def cfAdjustedScore (s : SellerData) : Option VeribleFeedback → ℚ
  | some fb =>
    if 0 < cfNet fb then min 100 (cfBaseScore s + (cfNet fb : ℚ) * 5)
    else if cfNet fb < 0 then max 0 (cfBaseScore s + (cfNet fb : ℚ) * 10)
    else cfBaseScore s
  | none => cfBaseScore s

/-- Category 6: Community Feedback; unavailable exactly when the review
count is zero and no community feedback object was supplied. -/
def calculateCommunityFeedbackScore (s : SellerData) (veribleFeedback : Option VeribleFeedback) : CategoryScore :=
  if s.marketplaceData.totalReviews = 0 ∧ veribleFeedback = none then ⟨none, false⟩
  else ⟨some (min 100 (max 0 (cfAdjustedScore s veribleFeedback))), true⟩

/-- Lowercased concatenation of a listing title and description (the
`fullText` the red-flag analyzer scans). -/
def fullTextOf (l : Listing) : String := toLowerStr l.title ++ " " ++ toLowerStr l.description

/-- Urgency-language family: `urgent|asap|immediate|hurry`. -/
def urgencyFlag (t : String) : Bool :=
  strContains t "urgent" || strContains t "asap" || strContains t "immediate" || strContains t "hurry"

/-- Financial-pressure family: `need money|bills|must sell|quick sale|fast sale`. -/
def financialFlag (t : String) : Bool :=
  strContains t "need money" || strContains t "bills" || strContains t "must sell" ||
  strContains t "quick sale" || strContains t "fast sale"

/-- Cash-only family: `cash only|payment first|no questions`. -/
def cashOnlyFlag (t : String) : Bool :=
  strContains t "cash only" || strContains t "payment first" || strContains t "no questions"

/-- First-come family: `first come|first serve`. -/
def firstComeFlag (t : String) : Bool :=
  strContains t "first come" || strContains t "first serve"

/-- Off-platform contact family:
`whatsapp|telegram|contact me at|call.*\d\x7b10\x7d|text.*\d\x7b10\x7d`. -/
def offPlatformFlag (t : String) : Bool :=
  strContains t "whatsapp" || strContains t "telegram" || strContains t "contact me at" ||
  seqKeyDigits "call".data t.data || seqKeyDigits "text".data t.data

/-- ALL-CAPS title check: non-empty, equal to its uppercasing, longer than 5. -/
def allCapsFlag (title : String) : Bool :=
  title != "" && title == toUpperStr title && decide (5 < title.length)

/-- Count of emoji/pictograph code points in the text. -/
def emojiCountOf (t : String) : ℕ := (t.data.filter isEmojiChar).length

/-- Excessive-emoji check: more than three emoji code points. -/
def emojiFlag (t : String) : Bool := decide (3 < emojiCountOf t)

/-- Total penalty one listing contributes (urgency 15, financial pressure
15, cash-only 20, first-come 10, off-platform 20, all-caps 5, emojis 5). -/
def brfPenalty (l : Listing) : ℤ :=
  (if urgencyFlag (fullTextOf l) then 15 else 0) +
  (if financialFlag (fullTextOf l) then 15 else 0) +
  (if cashOnlyFlag (fullTextOf l) then 20 else 0) +
  (if firstComeFlag (fullTextOf l) then 10 else 0) +
  (if offPlatformFlag (fullTextOf l) then 20 else 0) +
  (if allCapsFlag l.title then 5 else 0) +
  (if emojiFlag (fullTextOf l) then 5 else 0)

/-- Red-flag entries one listing contributes, in the source's check order;
`idx` is the 0-based listing position and entries record `idx + 1`. -/
def brfFlags (idx : ℕ) (l : Listing) : List RedFlag :=
  (if urgencyFlag (fullTextOf l) then [⟨idx + 1, "Urgent language", none, 15⟩] else []) ++
  (if financialFlag (fullTextOf l) then [⟨idx + 1, "Financial pressure language", none, 15⟩] else []) ++
  (if cashOnlyFlag (fullTextOf l) then [⟨idx + 1, "Cash only / suspicious payment", none, 20⟩] else []) ++
  (if firstComeFlag (fullTextOf l) then [⟨idx + 1, "First come first serve", none, 10⟩] else []) ++
  (if offPlatformFlag (fullTextOf l) then [⟨idx + 1, "Off-platform contact attempt", none, 20⟩] else []) ++
  (if allCapsFlag l.title then [⟨idx + 1, "ALL-CAPS title", none, 5⟩] else []) ++
  (if emojiFlag (fullTextOf l) then [⟨idx + 1, "Excessive emojis", some (emojiCountOf (fullTextOf l)), 5⟩] else [])

/-- Red-flag entries accumulated over all listings, in scan order. -/
def brfRedFlags (recentListings : List Listing) : List RedFlag :=
  (recentListings.enum.map fun p => brfFlags p.1 p.2).flatten

/-- Category 7: Behavioral Red Flags: start at 100, subtract every matched
penalty, floor the result at 0; unavailable with zero listings. -/
def calculateBehavioralRedFlagsScore (recentListings : List Listing) (_sellerData : SellerData) : CategoryScore :=
  if recentListings = [] then ⟨none, false⟩
  else ⟨some ((max 0 (100 - (recentListings.map brfPenalty).sum) : ℤ) : ℚ), true⟩

/-- Breakdown red-flag list of the Behavioral Red Flags scorer. -/
def calculateBehavioralRedFlagsBreakdown (recentListings : List Listing) : List RedFlag :=
  brfRedFlags recentListings

/-- Categories in the declaration order of the source's `categories`
object, paired with their JavaScript keys. -/
def categoriesList (c : Categories) : List (String × CategoryScore) :=
  [("verificationIdentity", c.verificationIdentity),
   ("accountMaturity", c.accountMaturity),
   ("listingCompleteness", c.listingCompleteness),
   ("activityRecency", c.activityRecency),
   ("engagement", c.engagement),
   ("communityFeedback", c.communityFeedback),
   ("behavioralRedFlags", c.behavioralRedFlags)]

/-- The seven category scorer results for one input (the `categories`
object built inside `calculatePulseScore`). -/
def mkCategories (s : SellerData) (recentListings : List Listing) (veribleFeedback : Option VeribleFeedback) : Categories :=
  ⟨calculateVerificationIdentityScore s,
   calculateAccountMaturityScore s,
   calculateListingCompletenessScore recentListings s,
   calculateActivityRecencyScore s recentListings,
   calculateEngagementScore s,
   calculateCommunityFeedbackScore s veribleFeedback,
   calculateBehavioralRedFlagsScore recentListings s⟩

/-- Count of available categories (`filter(c => c.available).length`). -/
def availCountOf (c : Categories) : ℕ :=
  ((categoriesList c).filter fun p => p.2.available).length

/-- Names of the unavailable categories. -/
def missingOf (c : Categories) : List String :=
  ((categoriesList c).filter fun p => !p.2.available).map fun p => p.1

/-- Truthiness of `score > 0` on a nullable score (`null > 0` is false). -/
def scoreGtZero : Option ℚ → Bool
  | some x => decide (0 < x)
  | none => false

/-- Business-style-language test on the profile biography
(`includes('we supply') || includes('we sell')` after lowercasing). -/
def hasBusinessIndicators (s : SellerData) : Bool :=
  strContains (toLowerStr s.profileData.biography) "we supply" ||
  strContains (toLowerStr s.profileData.biography) "we sell"

/-- Recency component of confidence. -/
def recencyOf (s : SellerData) (recentListings : List Listing) : ℚ :=
  match s.marketplaceData.lastSeen with
  | some days => if days ≤ 30 then 1 else if days ≤ 60 then 3/5 else 3/10
  | none => if recentListings ≠ [] then 3/5 else 3/10

/-- Consistency component of confidence: drops to 0.7 for business-style
biography language without a positive verification score. -/
def consistencyOf (s : SellerData) (c : Categories) : ℚ :=
  if hasBusinessIndicators s && !scoreGtZero c.verificationIdentity.score then 7/10 else 1

/-- Confidence metrics: coverage (available/7), recency, consistency, and
`confidence = 0.5*coverage + 0.3*recency + 0.2*consistency`, every
reported component rounded to two decimals. -/
def calculateConfidence (s : SellerData) (recentListings : List Listing) (c : Categories) : ConfidenceMetrics :=
  ⟨round2 (1/2 * ((availCountOf c : ℚ) / ((categoriesList c).length : ℚ)) +
      3/10 * recencyOf s recentListings + 1/5 * consistencyOf s c),
   round2 ((availCountOf c : ℚ) / ((categoriesList c).length : ℚ)),
   round2 (recencyOf s recentListings),
   round2 (consistencyOf s c),
   availCountOf c,
   (categoriesList c).length,
   missingOf c⟩

/-- A category counts toward the aggregate when it is available and its
score is non-null (`available && score !== null`). -/
def usable (c : CategoryScore) : Bool := c.available && c.score.isSome

/-- Total fixed weight of the usable categories. -/
def totalWeightOf (c : Categories) : ℚ :=
  ((categoriesList c).map fun p => if usable p.2 then categoryWeight p.1 else 0).sum

/-- Weighted aggregator: renormalize fixed weights over the usable
categories; the final score is the rounded weighted sum and the output
weight list carries rounded integer percentages (0 for unusable
categories). Degenerate case: zero total weight gives score 0 and an
empty weight list. -/
def calculateFinalScore (c : Categories) : ℤ × List (String × ℤ) :=
  if totalWeightOf c = 0 then (0, [])
  else
    (jsRound (((categoriesList c).map fun p =>
        if usable p.2 then p.2.score.getD 0 * (categoryWeight p.1 / totalWeightOf c) else 0).sum),
     (categoriesList c).map fun p =>
        (p.1, if usable p.2 then jsRound (categoryWeight p.1 / totalWeightOf c * 100) else 0))

/-- Truthiness of `score < b` on a nullable score (`null < b` is false). -/
def scoreLt (o : Option ℚ) (b : ℚ) : Bool :=
  match o with
  | some x => decide (x < b)
  | none => false

/-- Truthiness of `score >= b` on a nullable score. -/
def scoreGe (o : Option ℚ) (b : ℚ) : Bool :=
  match o with
  | some x => decide (b ≤ x)
  | none => false

/-- Overall recommendation keyed by the final-score bands. -/
def overallRecommendation (finalScore : ℤ) : Recommendation :=
  if 80 ≤ finalScore then
    ⟨"positive", some "high", "Highly trustworthy seller with excellent verification and track record", "Safe to Purchase"⟩
  else if 60 ≤ finalScore then
    ⟨"positive", some "medium", "Good trust indicators with minor concerns", "Consider for Purchase"⟩
  else if 40 ≤ finalScore then
    ⟨"warning", some "high", "Mixed trust indicators - proceed with caution", "Review Carefully Before Purchase"⟩
  else
    ⟨"negative", some "critical", "Low trust score - high risk transaction", "Avoid or Request Additional Verification"⟩

/-- Recommendation list: the overall recommendation plus the conditional
category-specific warnings. -/
def generateRecommendations (finalScore : ℤ) (c : Categories) : List Recommendation :=
  [overallRecommendation finalScore] ++
  (if c.verificationIdentity.available && scoreLt c.verificationIdentity.score 50 then
    [⟨"warning", some "high", "Seller is not verified - identity cannot be confirmed", "Request verification before proceeding"⟩] else []) ++
  (if c.behavioralRedFlags.available && scoreLt c.behavioralRedFlags.score 70 then
    [⟨"warning", some "critical", "Multiple red flags detected in listings (urgency, suspicious payment requests)", "Exercise extreme caution or avoid"⟩] else []) ++
  (if c.communityFeedback.available && scoreLt c.communityFeedback.score 40 then
    [⟨"warning", some "medium", "Limited or poor community feedback", "Check reviews carefully"⟩] else [])

/-- Trust-level label bands. -/
def determineTrustLevel (score : ℤ) : String :=
  if 80 ≤ score then "Excellent"
  else if 60 ≤ score then "Good"
  else if 40 ≤ score then "Fair"
  else if 20 ≤ score then "Poor"
  else "Very Poor"

/-- Confidence-level label bands. -/
def getConfidenceLabel (confidence : ℚ) : String :=
  if 80/100 ≤ confidence then "Very High"
  else if 60/100 ≤ confidence then "High"
  else if 40/100 ≤ confidence then "Medium"
  else if 20/100 ≤ confidence then "Low"
  else "Very Low"

/-- Risk factors per category danger threshold. -/
def identifyRiskFactors (c : Categories) : List RiskFactor :=
  (if c.verificationIdentity.available && scoreLt c.verificationIdentity.score 30 then
    [⟨"Verification & Identity", "high", "Unverified seller identity"⟩] else []) ++
  (if c.accountMaturity.available && scoreLt c.accountMaturity.score 40 then
    [⟨"Account Maturity", "medium", "Very new account (less than 3 months)"⟩] else []) ++
  (if c.behavioralRedFlags.available && scoreLt c.behavioralRedFlags.score 70 then
    [⟨"Behavioral Red Flags", "critical", "Suspicious language patterns detected"⟩] else []) ++
  (if c.communityFeedback.available && scoreLt c.communityFeedback.score 40 then
    [⟨"Community Feedback", "medium", "Poor or insufficient reviews"⟩] else [])

/-- Strength message per category key. -/
def getStrengthMessage (category : String) : String :=
  if category = "verificationIdentity" then "Fully verified identity with complete profile"
  else if category = "accountMaturity" then "Well-established account with long history"
  else if category = "listingCompleteness" then "High-quality, detailed listings"
  else if category = "activityRecency" then "Very active and responsive seller"
  else if category = "engagement" then "Excellent response rate to buyers"
  else if category = "communityFeedback" then "Strong positive feedback from buyers"
  else if category = "behavioralRedFlags" then "No suspicious behavior detected"
  else "Strong performance in this area"

/-- Strength areas: every available category scoring at least 80. -/
def identifyStrengths (c : Categories) : List StrengthArea :=
  ((categoriesList c).filter fun p => p.2.available && scoreGe p.2.score 80).map
    fun p => ⟨p.1, p.2.score, getStrengthMessage p.1⟩

/-- The insufficient-data gate: `confidence < 0.35 || coverage < 0.40`. -/
def insufficientGate (confidence coverage : ℚ) : Bool :=
  decide (confidence < 35/100) || decide (coverage < 40/100)

/-- The single advisory recommendation attached to the insufficient-data
result. -/
def insufficientAdvisory : List Recommendation :=
  [⟨"warning", none, "Insufficient data to generate reliable trust score", "More seller activity or profile information needed"⟩]

/-- The scoring engine entry point `calculatePulseScore`: run the seven
scorers, compute confidence, apply the insufficient-data gate, otherwise
aggregate and synthesize the success result. -/
def calculatePulseScore (sellerData : SellerData) (recentListings : List Listing) (veribleFeedback : Option VeribleFeedback) : ScoringResult :=
  let categories := mkCategories sellerData recentListings veribleFeedback
  let confidenceMetrics := calculateConfidence sellerData recentListings categories
  if insufficientGate confidenceMetrics.confidence confidenceMetrics.coverage then
    .insufficientData confidenceMetrics.confidence confidenceMetrics.coverage
      confidenceMetrics.availableCategories confidenceMetrics.missingCategories insufficientAdvisory
  else
    .success (calculateFinalScore categories).1 confidenceMetrics.confidence
      (getConfidenceLabel confidenceMetrics.confidence)
      (determineTrustLevel (calculateFinalScore categories).1)
      categories (calculateFinalScore categories).2 confidenceMetrics
      (generateRecommendations (calculateFinalScore categories).1 categories)
      (identifyRiskFactors categories) (identifyStrengths categories)

/-- Category-weight list of a success result, `none` on the
insufficient-data result (detects `status == "success"`). -/
def resultCategoryWeights : ScoringResult → Option (List (String × ℤ))
  | .success _ _ _ _ _ ws _ _ _ _ => some ws
  | .insufficientData _ _ _ _ _ => none

/-- Sum of the integer values of a category-weight list. -/
def sumVals (ws : List (String × ℤ)) : ℤ := (ws.map fun p => p.2).sum

/-- Total fixed weight of the usable categories among the seven, as a
function of the seven usability bits (declaration order). -/
def bitsTotalWeight (vi am lc ar en cf brf : Bool) : ℚ :=
  (if vi then (1:ℚ)/4 else 0) + (if am then 3/20 else 0) + (if lc then 3/20 else 0) +
  (if ar then 1/10 else 0) + (if en then 1/10 else 0) + (if cf then 1/10 else 0) +
  (if brf then 3/20 else 0)

/-- Sum of the output weight percentages of the aggregator as a function of
the seven usability bits. -/
def weightsSumBits (vi am lc ar en cf brf : Bool) : ℤ :=
  if bitsTotalWeight vi am lc ar en cf brf = 0 then 0
  else
    (if vi then jsRound (1/4 / bitsTotalWeight vi am lc ar en cf brf * 100) else 0) +
    (if am then jsRound (3/20 / bitsTotalWeight vi am lc ar en cf brf * 100) else 0) +
    (if lc then jsRound (3/20 / bitsTotalWeight vi am lc ar en cf brf * 100) else 0) +
    (if ar then jsRound (1/10 / bitsTotalWeight vi am lc ar en cf brf * 100) else 0) +
    (if en then jsRound (1/10 / bitsTotalWeight vi am lc ar en cf brf * 100) else 0) +
    (if cf then jsRound (1/10 / bitsTotalWeight vi am lc ar en cf brf * 100) else 0) +
    (if brf then jsRound (3/20 / bitsTotalWeight vi am lc ar en cf brf * 100) else 0)

/-- Scorer envelope invariant: null score exactly on unavailability, and
available scores lie in [0,100]. -/
def ScoreOk (c : CategoryScore) : Prop :=
  (c.score = none ↔ c.available = false) ∧ ∀ x, c.score = some x → 0 ≤ x ∧ x ≤ 100

/-- All seven category envelopes satisfy the null-iff-unavailable
invariant (the shape every scorer guarantees). -/
def CatsWellFormed (c : Categories) : Prop :=
  ∀ p ∈ categoriesList c, (p.2.score = none ↔ p.2.available = false)

/-- Per-listing award as the specification words it (title present 5,
price present and numeric-looking 10, image count at least 3 gives 15
else at least 1 gives 5, description length at least 100 gives 20);
compared against the source's `listingScore`. -/
def specListingPoints (l : Listing) : ℚ :=
  (if l.title ≠ "" then 5 else 0) +
  (if l.price ≠ "" ∧ l.hasPrice ≠ some false then 10 else 0) +
  (if 3 ≤ l.imageCount then 15 else if 1 ≤ l.imageCount then 5 else 0) +
  (if 100 ≤ l.descriptionLength then 20 else 0)

/-- Sample seller with no marketplace signals at all. -/
def bareSeller : SellerData := ⟨⟨"", 0, none, 0, 0, 0⟩, ⟨false, "", ""⟩⟩

/-- Sample minimal listing: a title and nothing else. -/
def plainListing : Listing := ⟨"x", "", none, 0, "", 0⟩

/-- Sample listing whose description carries the three-family red-flag
phrase. -/
def flaggedListing : Listing := ⟨"", "", none, 0, "URGENT, CASH ONLY, message me on WhatsApp", 41⟩

/-- Sample seller with exactly one marketplace review. -/
def reviewedSeller : SellerData := ⟨⟨"", 0, none, 0, 1, 0⟩, ⟨false, "", ""⟩⟩

/-- Sample seller with a 4.8 average rating but zero reviews. -/
def ratedSeller : SellerData := ⟨⟨"", 0, none, 0, 0, 24/5⟩, ⟨false, "", ""⟩⟩

/-- Sample category set with all seven categories available. -/
def fullCats : Categories :=
  ⟨⟨some 80, true⟩, ⟨some 70, true⟩, ⟨some 60, true⟩, ⟨some 50, true⟩,
   ⟨some 40, true⟩, ⟨some 30, true⟩, ⟨some 90, true⟩⟩

/-- Sample complete listing (consistent description length). -/
def richListing : Listing := ⟨"Sofa", "100", none, 3, "d", 1⟩

theorem matchesAt_iff (n : List Char) : ∀ h : List Char, matchesAt n h = true ↔ n <+: h := by
  induction n with
  | nil => intro h; simp [matchesAt]
  | cons c cs ih =>
    intro h
    cases h with
    | nil => simp [matchesAt]
    | cons d ds => simp [matchesAt, List.cons_prefix_cons, ih]

theorem findSub_iff (n h : List Char) : findSub n h = true ↔ n <:+: h := by
  induction h with
  | nil => simp [findSub, matchesAt_iff]
  | cons d t ih => simp [findSub, matchesAt_iff, ih, List.infix_cons_iff]

theorem strContains_trans {a b c : String} (hab : strContains a b = true)
    (hbc : strContains b c = true) : strContains a c = true := by
  rw [strContains, findSub_iff] at hab hbc ⊢
  exact hbc.trans hab

theorem jsRound_nonneg {x : ℚ} (h : 0 ≤ x) : 0 ≤ jsRound x := by
  rw [jsRound]
  exact Int.le_floor.mpr (by push_cast; linarith)

theorem jsRound_le {x : ℚ} {n : ℤ} (h : x ≤ (n : ℚ)) : jsRound x ≤ n := by
  rw [jsRound]
  have h2 : ⌊x + 1/2⌋ < n + 1 := by
    apply Int.floor_lt.mpr
    push_cast
    linarith
  omega

theorem listingScore_nonneg (l : Listing) : 0 ≤ listingScore l := by
  rw [listingScore]; split_ifs <;> norm_num

theorem brfPenalty_nonneg (l : Listing) : 0 ≤ brfPenalty l := by
  rw [brfPenalty]; split_ifs <;> norm_num

theorem viBaseScore_nonneg (s : SellerData) : 0 ≤ viBaseScore s := by
  rw [viBaseScore]; split_ifs <;> norm_num

theorem viPhotoScore_nonneg (s : SellerData) : 0 ≤ viPhotoScore s := by
  rw [viPhotoScore]
  split_ifs
  · exact le_min (by norm_num) (by linarith [viBaseScore_nonneg s])
  · exact viBaseScore_nonneg s

theorem viLocationScore_nonneg (s : SellerData) : 0 ≤ viLocationScore s := by
  rw [viLocationScore]
  split_ifs
  · exact le_min (by norm_num) (by linarith [viPhotoScore_nonneg s])
  · exact viPhotoScore_nonneg s

theorem vi_score_eq (s : SellerData) :
    calculateVerificationIdentityScore s = ⟨some (min 100 (viLocationScore s)), true⟩ := rfl

theorem vi_ok (s : SellerData) : ScoreOk (calculateVerificationIdentityScore s) := by
  refine ⟨by simp [calculateVerificationIdentityScore], ?_⟩
  intro x hx
  simp only [calculateVerificationIdentityScore, Option.some.injEq] at hx
  subst hx
  exact ⟨le_min (by norm_num) (viLocationScore_nonneg s), min_le_left _ _⟩

theorem scoreOk_const {v : ℚ} (h0 : 0 ≤ v) (h1 : v ≤ 100) : ScoreOk ⟨some v, true⟩ := by
  refine ⟨by simp, ?_⟩
  intro x hx
  simp only [Option.some.injEq] at hx
  subst hx
  exact ⟨h0, h1⟩

theorem scoreOk_na : ScoreOk ⟨none, false⟩ := ⟨by simp, fun x hx => by simp at hx⟩

theorem am_ok (s : SellerData) : ScoreOk (calculateAccountMaturityScore s) := by
  rw [calculateAccountMaturityScore]
  split_ifs <;> first
    | exact scoreOk_na
    | exact scoreOk_const (by norm_num) (by norm_num)

theorem lc_ok (ls : List Listing) (s : SellerData) :
    ScoreOk (calculateListingCompletenessScore ls s) := by
  rw [calculateListingCompletenessScore]
  split_ifs with h
  · exact ⟨by simp, fun x hx => by simp at hx⟩
  · refine ⟨by simp, ?_⟩
    intro x hx
    simp only [Option.some.injEq] at hx
    subst hx
    have hnn : (0:ℚ) ≤ ((ls.take 5).map listingScore).sum / (((ls.take 5).length : ℕ) : ℚ) / 50 * 100 := by
      apply mul_nonneg _ (by norm_num)
      apply div_nonneg _ (by norm_num)
      apply div_nonneg _ (by positivity)
      apply List.sum_nonneg
      intro a ha
      obtain ⟨l, _, rfl⟩ := List.mem_map.mp ha
      exact listingScore_nonneg l
    constructor
    · exact_mod_cast jsRound_nonneg (le_min (by norm_num) hnn)
    · exact_mod_cast jsRound_le (le_trans (min_le_left _ _) (by norm_num))

theorem ar_ok (s : SellerData) (ls : List Listing) :
    ScoreOk (calculateActivityRecencyScore s ls) := by
  rw [calculateActivityRecencyScore]
  rcases s.marketplaceData.lastSeen with _ | days <;> dsimp only
  · split_ifs <;> first
      | exact scoreOk_na
      | exact scoreOk_const (by norm_num) (by norm_num)
  · split_ifs <;> exact scoreOk_const (by norm_num) (by norm_num)

theorem en_ok (s : SellerData) : ScoreOk (calculateEngagementScore s) := by
  rw [calculateEngagementScore]
  split_ifs <;> first
    | exact scoreOk_na
    | exact scoreOk_const (by norm_num) (by norm_num)

theorem cf_ok (s : SellerData) (fb : Option VeribleFeedback) :
    ScoreOk (calculateCommunityFeedbackScore s fb) := by
  rw [calculateCommunityFeedbackScore]
  split_ifs
  · exact ⟨by simp, fun x hx => by simp at hx⟩
  · refine ⟨by simp, ?_⟩
    intro x hx
    simp only [Option.some.injEq] at hx
    subst hx
    exact ⟨le_min (by norm_num) (le_max_left _ _), min_le_left _ _⟩

theorem brf_ok (ls : List Listing) (s : SellerData) :
    ScoreOk (calculateBehavioralRedFlagsScore ls s) := by
  rw [calculateBehavioralRedFlagsScore]
  split_ifs
  · exact ⟨by simp, fun x hx => by simp at hx⟩
  · refine ⟨by simp, ?_⟩
    intro x hx
    simp only [Option.some.injEq] at hx
    subst hx
    have hp : 0 ≤ (ls.map brfPenalty).sum := by
      apply List.sum_nonneg
      intro a ha
      obtain ⟨l, _, rfl⟩ := List.mem_map.mp ha
      exact brfPenalty_nonneg l
    constructor
    · exact_mod_cast le_max_left 0 _
    · exact_mod_cast max_le (by norm_num) (by omega)

theorem usable_vi (s : SellerData) : usable (calculateVerificationIdentityScore s) = true := rfl

theorem usable_lc (ls : List Listing) (s : SellerData) :
    usable (calculateListingCompletenessScore ls s) = !ls.isEmpty := by
  cases ls <;> simp [usable, calculateListingCompletenessScore]

theorem usable_brf (ls : List Listing) (s : SellerData) :
    usable (calculateBehavioralRedFlagsScore ls s) = !ls.isEmpty := by
  cases ls <;> simp [usable, calculateBehavioralRedFlagsScore]

theorem usable_ar_of_listings (s : SellerData) (ls : List Listing) (h : ls ≠ []) :
    usable (calculateActivityRecencyScore s ls) = true := by
  rw [calculateActivityRecencyScore]
  rcases s.marketplaceData.lastSeen with _ | days <;> dsimp only
  · simp [h, usable]
  · split_ifs <;> rfl

theorem categoryWeight_nonneg (k : String) : 0 ≤ categoryWeight k := by
  rw [categoryWeight]; split_ifs <;> norm_num

theorem totalWeight_eq_bits (c : Categories) :
    totalWeightOf c = bitsTotalWeight (usable c.verificationIdentity) (usable c.accountMaturity)
      (usable c.listingCompleteness) (usable c.activityRecency) (usable c.engagement)
      (usable c.communityFeedback) (usable c.behavioralRedFlags) := by
  simp only [totalWeightOf, categoriesList, bitsTotalWeight, categoryWeight, List.map_cons,
    List.map_nil, List.sum_cons, List.sum_nil, if_true, String.reduceEq, if_false]
  ring

theorem sumVals_finalScore (c : Categories) :
    sumVals (calculateFinalScore c).2 =
      weightsSumBits (usable c.verificationIdentity) (usable c.accountMaturity)
        (usable c.listingCompleteness) (usable c.activityRecency) (usable c.engagement)
        (usable c.communityFeedback) (usable c.behavioralRedFlags) := by
  rw [calculateFinalScore, weightsSumBits, ← totalWeight_eq_bits]
  by_cases h : totalWeightOf c = 0
  · simp only [if_pos h]
    simp [sumVals]
  · simp only [if_neg h]
    simp only [sumVals, categoriesList, categoryWeight, List.map_cons, List.map_nil,
      List.sum_cons, List.sum_nil, if_true, String.reduceEq, if_false]
    ring_nf

theorem totalWeight_nonneg (c : Categories) : 0 ≤ totalWeightOf c := by
  apply List.sum_nonneg
  intro a ha
  obtain ⟨p, _, rfl⟩ := List.mem_map.mp ha
  split_ifs
  · exact categoryWeight_nonneg _
  · exact le_refl 0

theorem ite_weight_nonneg (b : Bool) (q : ℚ) (hq : 0 ≤ q) : 0 ≤ if b then q else 0 := by
  cases b <;> simp [hq]

theorem totalWeight_ge_vi (c : Categories) (h : usable c.verificationIdentity = true) :
    1/4 ≤ totalWeightOf c := by
  rw [totalWeight_eq_bits, bitsTotalWeight, h]
  have h2 := ite_weight_nonneg (usable c.accountMaturity) (3/20) (by norm_num)
  have h3 := ite_weight_nonneg (usable c.listingCompleteness) (3/20) (by norm_num)
  have h4 := ite_weight_nonneg (usable c.activityRecency) (1/10) (by norm_num)
  have h5 := ite_weight_nonneg (usable c.engagement) (1/10) (by norm_num)
  have h6 := ite_weight_nonneg (usable c.communityFeedback) (1/10) (by norm_num)
  have h7 := ite_weight_nonneg (usable c.behavioralRedFlags) (3/20) (by norm_num)
  have h1 : (if (true : Bool) then (1:ℚ)/4 else 0) = 1/4 := by norm_num
  rw [h1]
  linarith

theorem weightsSumBits_bound (am lc ar en cf brf : Bool) (h1 : lc = brf)
    (h2 : lc = true → ar = true) :
    99 ≤ weightsSumBits true am lc ar en cf brf ∧
      weightsSumBits true am lc ar en cf brf ≤ 101 := by
  subst h1
  cases am <;> cases lc <;> cases ar <;> cases en <;> cases cf <;>
    simp_all <;>
    norm_num [weightsSumBits, bitsTotalWeight, jsRound]

theorem am_bare : calculateAccountMaturityScore bareSeller = ⟨none, false⟩ := by
  rw [calculateAccountMaturityScore, if_pos (by decide)]

theorem en_bare : calculateEngagementScore bareSeller = ⟨none, false⟩ := by
  rw [calculateEngagementScore, if_pos (by decide)]

theorem cf_bare : calculateCommunityFeedbackScore bareSeller none = ⟨none, false⟩ := by
  rw [calculateCommunityFeedbackScore, if_pos ⟨by decide, rfl⟩]

theorem lc_empty (s : SellerData) : calculateListingCompletenessScore [] s = ⟨none, false⟩ := by
  rw [calculateListingCompletenessScore, if_pos rfl]

theorem brf_empty (s : SellerData) : calculateBehavioralRedFlagsScore [] s = ⟨none, false⟩ := by
  rw [calculateBehavioralRedFlagsScore, if_pos rfl]

theorem ar_bare_empty : calculateActivityRecencyScore bareSeller [] = ⟨none, false⟩ := by
  simp [calculateActivityRecencyScore, bareSeller]

theorem vi_avail (s : SellerData) : (calculateVerificationIdentityScore s).available = true := rfl

theorem availCount_bare : availCountOf (mkCategories bareSeller [] none) = 1 := by
  simp [availCountOf, categoriesList, mkCategories, am_bare, en_bare, cf_bare, lc_empty,
    brf_empty, ar_bare_empty, calculateVerificationIdentityScore]

theorem missing_bare : missingOf (mkCategories bareSeller [] none) =
    ["accountMaturity", "listingCompleteness", "activityRecency", "engagement",
     "communityFeedback", "behavioralRedFlags"] := by
  simp [missingOf, categoriesList, mkCategories, am_bare, en_bare, cf_bare, lc_empty,
    brf_empty, ar_bare_empty, calculateVerificationIdentityScore]

theorem recency_bare : recencyOf bareSeller [] = 3/10 := by
  simp [recencyOf, bareSeller]

theorem consistency_bare (c : Categories) : consistencyOf bareSeller c = 1 := by
  simp [consistencyOf, show hasBusinessIndicators bareSeller = false from by decide]

theorem conf_bare : calculateConfidence bareSeller [] (mkCategories bareSeller [] none) =
    ⟨9/25, 7/50, 3/10, 1, 1, 7,
     ["accountMaturity", "listingCompleteness", "activityRecency", "engagement",
      "communityFeedback", "behavioralRedFlags"]⟩ := by
  rw [calculateConfidence, availCount_bare, recency_bare, consistency_bare, missing_bare]
  norm_num [categoriesList, round2, jsRound]

theorem gate_bare :
    insufficientGate (calculateConfidence bareSeller [] (mkCategories bareSeller [] none)).confidence
      (calculateConfidence bareSeller [] (mkCategories bareSeller [] none)).coverage = true := by
  rw [conf_bare]
  norm_num [insufficientGate]

theorem ar_plain : calculateActivityRecencyScore bareSeller [plainListing] = ⟨some 50, true⟩ := by
  simp [calculateActivityRecencyScore, bareSeller]

theorem lc_plain_avail : (calculateListingCompletenessScore [plainListing] bareSeller).available = true := by
  rw [calculateListingCompletenessScore, if_neg (by decide)]

theorem brf_plain_avail : (calculateBehavioralRedFlagsScore [plainListing] bareSeller).available = true := by
  rw [calculateBehavioralRedFlagsScore, if_neg (by decide)]

theorem availCount_plain : availCountOf (mkCategories bareSeller [plainListing] none) = 4 := by
  have h1 := lc_plain_avail
  have h2 := brf_plain_avail
  simp [availCountOf, categoriesList, mkCategories, am_bare, en_bare, cf_bare, ar_plain,
    calculateVerificationIdentityScore] at h1 h2 ⊢
  simp [availCountOf, categoriesList, mkCategories, h1, h2, am_bare, en_bare, cf_bare,
    ar_plain, calculateVerificationIdentityScore]

theorem missing_plain : missingOf (mkCategories bareSeller [plainListing] none) =
    ["accountMaturity", "engagement", "communityFeedback"] := by
  have h1 := lc_plain_avail
  have h2 := brf_plain_avail
  simp [missingOf, categoriesList, mkCategories, h1, h2, am_bare, en_bare, cf_bare,
    ar_plain, calculateVerificationIdentityScore]

theorem recency_plain : recencyOf bareSeller [plainListing] = 3/5 := by
  simp [recencyOf, bareSeller]

theorem conf_plain_fields :
    (calculateConfidence bareSeller [plainListing] (mkCategories bareSeller [plainListing] none)).confidence = 67/100 ∧
    (calculateConfidence bareSeller [plainListing] (mkCategories bareSeller [plainListing] none)).coverage = 57/100 := by
  rw [calculateConfidence, availCount_plain, recency_plain, consistency_bare]
  norm_num [categoriesList, round2, jsRound]

theorem gate_plain :
    insufficientGate
      (calculateConfidence bareSeller [plainListing] (mkCategories bareSeller [plainListing] none)).confidence
      (calculateConfidence bareSeller [plainListing] (mkCategories bareSeller [plainListing] none)).coverage = false := by
  rw [conf_plain_fields.1, conf_plain_fields.2]
  norm_num [insufficientGate]

theorem usable_am_bare : usable (calculateAccountMaturityScore bareSeller) = false := by
  rw [am_bare]; rfl

theorem usable_en_bare : usable (calculateEngagementScore bareSeller) = false := by
  rw [en_bare]; rfl

theorem usable_cf_bare : usable (calculateCommunityFeedbackScore bareSeller none) = false := by
  rw [cf_bare]; rfl

theorem usable_ar_plain : usable (calculateActivityRecencyScore bareSeller [plainListing]) = true := by
  rw [ar_plain]; rfl

theorem totalWeight_plain : totalWeightOf (mkCategories bareSeller [plainListing] none) = 13/20 := by
  rw [totalWeight_eq_bits]
  simp only [mkCategories, usable_vi, usable_lc, usable_brf, usable_am_bare, usable_en_bare,
    usable_cf_bare, usable_ar_plain, List.isEmpty_cons, Bool.not_false]
  norm_num [bitsTotalWeight]

theorem ws_plain : (calculateFinalScore (mkCategories bareSeller [plainListing] none)).2 =
    [("verificationIdentity", 38), ("accountMaturity", 0), ("listingCompleteness", 23),
     ("activityRecency", 15), ("engagement", 0), ("communityFeedback", 0),
     ("behavioralRedFlags", 23)] := by
  rw [calculateFinalScore, if_neg (by rw [totalWeight_plain]; norm_num), totalWeight_plain]
  simp only [categoriesList, mkCategories, List.map_cons, List.map_nil, usable_vi, usable_lc,
    usable_brf, usable_am_bare, usable_en_bare, usable_cf_bare, usable_ar_plain,
    List.isEmpty_cons, Bool.not_false, categoryWeight, String.reduceEq, Bool.false_eq_true,
    if_false, if_true]
  norm_num [jsRound]

theorem pulse_plain_weights :
    resultCategoryWeights (calculatePulseScore bareSeller [plainListing] none) =
      some [("verificationIdentity", 38), ("accountMaturity", 0), ("listingCompleteness", 23),
            ("activityRecency", 15), ("engagement", 0), ("communityFeedback", 0),
            ("behavioralRedFlags", 23)] := by
  simp only [calculatePulseScore, gate_plain, Bool.false_eq_true, if_false,
    resultCategoryWeights, ws_plain]

/-- C1: for every input, when the computed confidence is below 0.35 or the
computed coverage is below 0.40 the engine returns the normal
insufficient-data value carrying the confidence and coverage metrics, the
available-category count, the missing-category list and the single
advisory recommendation, and no pulse score (the `insufficientData`
constructor has no score field and the embedded function is total, so the
outcome is an ordinary return value, not an exception); otherwise it
produces a `"success"` result. The gate itself maps confidence 0.34 with
coverage 0.50 and confidence 0.50 with coverage 0.39 to insufficient
data, while confidence 0.50 with coverage 0.50 proceeds to scoring. -/
theorem claim1_insufficient_data_gate :
    (∀ (s : SellerData) (ls : List Listing) (fb : Option VeribleFeedback),
      (insufficientGate (calculateConfidence s ls (mkCategories s ls fb)).confidence
          (calculateConfidence s ls (mkCategories s ls fb)).coverage = true →
        calculatePulseScore s ls fb = ScoringResult.insufficientData
          (calculateConfidence s ls (mkCategories s ls fb)).confidence
          (calculateConfidence s ls (mkCategories s ls fb)).coverage
          (calculateConfidence s ls (mkCategories s ls fb)).availableCategories
          (calculateConfidence s ls (mkCategories s ls fb)).missingCategories
          insufficientAdvisory) ∧
      (insufficientGate (calculateConfidence s ls (mkCategories s ls fb)).confidence
          (calculateConfidence s ls (mkCategories s ls fb)).coverage = false →
        (calculatePulseScore s ls fb).statusOf = "success")) ∧
    insufficientGate (34/100) (50/100) = true ∧
    insufficientGate (50/100) (39/100) = true ∧
    insufficientGate (50/100) (50/100) = false := by
  refine ⟨fun s ls fb => ⟨fun h => ?_, fun h => ?_⟩, ?_, ?_, ?_⟩
  · simp only [calculatePulseScore, h, if_true]
  · simp only [calculatePulseScore, h, Bool.false_eq_true, if_false, ScoringResult.statusOf]
  · norm_num [insufficientGate]
  · norm_num [insufficientGate]
  · norm_num [insufficientGate]

/-- Witness for C1: the gate fires on a seller with no data (both branch
hypotheses are discharged on concrete inputs). -/
theorem claim1_witness :
    calculatePulseScore bareSeller [] none = ScoringResult.insufficientData
      (calculateConfidence bareSeller [] (mkCategories bareSeller [] none)).confidence
      (calculateConfidence bareSeller [] (mkCategories bareSeller [] none)).coverage
      (calculateConfidence bareSeller [] (mkCategories bareSeller [] none)).availableCategories
      (calculateConfidence bareSeller [] (mkCategories bareSeller [] none)).missingCategories
      insufficientAdvisory ∧
    (calculatePulseScore bareSeller [plainListing] none).statusOf = "success" :=
  ⟨(claim1_insufficient_data_gate.1 bareSeller [] none).1 gate_bare,
   (claim1_insufficient_data_gate.1 bareSeller [plainListing] none).2 gate_plain⟩

/-- Counterexample to C2: a seller with exactly one minimal listing
produces a success result whose category weights sum to 99, not 100
(38 + 0 + 23 + 15 + 0 + 0 + 23). -/
theorem claim2_counterexample :
    (calculatePulseScore bareSeller [plainListing] none).statusOf = "success" ∧
    resultCategoryWeights (calculatePulseScore bareSeller [plainListing] none) =
      some [("verificationIdentity", 38), ("accountMaturity", 0), ("listingCompleteness", 23),
            ("activityRecency", 15), ("engagement", 0), ("communityFeedback", 0),
            ("behavioralRedFlags", 23)] ∧
    sumVals [("verificationIdentity", 38), ("accountMaturity", 0), ("listingCompleteness", 23),
            ("activityRecency", 15), ("engagement", 0), ("communityFeedback", 0),
            ("behavioralRedFlags", 23)] = 99 := by
  refine ⟨?_, pulse_plain_weights, by decide⟩
  simp only [calculatePulseScore, gate_plain, Bool.false_eq_true, if_false,
    ScoringResult.statusOf]

/-- C2 (amended): whenever `calculatePulseScore` returns a success result,
every value of `categoryWeights` is a non-negative integer, and the
values sum to 99, 100 or 101 — independent rounding of the percentages
can move the total one point either way, so the sum is not always
exactly 100. -/
theorem claim2_amended_weights (s : SellerData) (ls : List Listing)
    (fb : Option VeribleFeedback) (ws : List (String × ℤ))
    (h : resultCategoryWeights (calculatePulseScore s ls fb) = some ws) :
    (∀ p ∈ ws, 0 ≤ p.2) ∧ 99 ≤ sumVals ws ∧ sumVals ws ≤ 101 := by
  have hws : ws = (calculateFinalScore (mkCategories s ls fb)).2 := by
    simp only [calculatePulseScore] at h
    cases hgate : insufficientGate (calculateConfidence s ls (mkCategories s ls fb)).confidence
        (calculateConfidence s ls (mkCategories s ls fb)).coverage with
    | true => rw [hgate] at h; simp [resultCategoryWeights] at h
    | false =>
      rw [hgate] at h
      simp only [Bool.false_eq_true, if_false, resultCategoryWeights, Option.some.injEq] at h
      exact h.symm
  rw [hws]
  constructor
  · intro p hp
    rw [calculateFinalScore] at hp
    by_cases h0 : totalWeightOf (mkCategories s ls fb) = 0
    · rw [if_pos h0] at hp
      simp at hp
    · rw [if_neg h0] at hp
      simp only [] at hp
      obtain ⟨q, _, rfl⟩ := List.mem_map.mp hp
      dsimp only
      split_ifs
      · exact jsRound_nonneg
          (mul_nonneg (div_nonneg (categoryWeight_nonneg q.1) (totalWeight_nonneg _)) (by norm_num))
      · exact le_refl 0
  · rw [sumVals_finalScore]
    simp only [mkCategories]
    rw [usable_vi, usable_lc, usable_brf]
    exact weightsSumBits_bound _ _ _ _ _ _ rfl
      (fun h2 => usable_ar_of_listings s ls (by cases ls <;> simp_all))

/-- Witness for C2 (amended) at the one-listing seller. -/
theorem claim2_witness :
    (∀ p ∈ [(("verificationIdentity" : String), (38 : ℤ)), ("accountMaturity", 0),
            ("listingCompleteness", 23), ("activityRecency", 15), ("engagement", 0),
            ("communityFeedback", 0), ("behavioralRedFlags", 23)], 0 ≤ p.2) ∧
    99 ≤ sumVals [("verificationIdentity", 38), ("accountMaturity", 0),
            ("listingCompleteness", 23), ("activityRecency", 15), ("engagement", 0),
            ("communityFeedback", 0), ("behavioralRedFlags", 23)] ∧
    sumVals [("verificationIdentity", 38), ("accountMaturity", 0),
            ("listingCompleteness", 23), ("activityRecency", 15), ("engagement", 0),
            ("communityFeedback", 0), ("behavioralRedFlags", 23)] ≤ 101 :=
  claim2_amended_weights bareSeller [plainListing] none _ pulse_plain_weights

/-- C3: for every input, each of the seven category scorers returns an
envelope whose score is null exactly when the category is unavailable,
and every non-null score lies within [0,100]. -/
theorem claim3_scorer_invariant (s : SellerData) (ls : List Listing)
    (fb : Option VeribleFeedback) :
    ScoreOk (calculateVerificationIdentityScore s) ∧
    ScoreOk (calculateAccountMaturityScore s) ∧
    ScoreOk (calculateListingCompletenessScore ls s) ∧
    ScoreOk (calculateActivityRecencyScore s ls) ∧
    ScoreOk (calculateEngagementScore s) ∧
    ScoreOk (calculateCommunityFeedbackScore s fb) ∧
    ScoreOk (calculateBehavioralRedFlagsScore ls s) :=
  ⟨vi_ok s, am_ok s, lc_ok ls s, ar_ok s ls, en_ok s, cf_ok s fb, brf_ok ls s⟩

/-- Witness for C3 at a concrete input. -/
theorem claim3_witness :
    ScoreOk (calculateVerificationIdentityScore bareSeller) ∧
    ScoreOk (calculateAccountMaturityScore bareSeller) ∧
    ScoreOk (calculateListingCompletenessScore [plainListing] bareSeller) ∧
    ScoreOk (calculateActivityRecencyScore bareSeller [plainListing]) ∧
    ScoreOk (calculateEngagementScore bareSeller) ∧
    ScoreOk (calculateCommunityFeedbackScore bareSeller none) ∧
    ScoreOk (calculateBehavioralRedFlagsScore [plainListing] bareSeller) :=
  claim3_scorer_invariant bareSeller [plainListing] none

theorem usable_eq_avail {cs : CategoryScore} (h : cs.score = none ↔ cs.available = false) :
    usable cs = cs.available := by
  rw [usable]
  cases hava : cs.available with
  | false => simp
  | true =>
    cases hs : cs.score with
    | none => rw [h] at hs; rw [hs] at hava; exact absurd hava (by simp)
    | some v => simp

theorem totalWeight_pos_of_avail (c : Categories) (hwf : CatsWellFormed c)
    (h : 0 < availCountOf c) : 0 < totalWeightOf c := by
  have hu : ∀ p ∈ categoriesList c, usable p.2 = p.2.available :=
    fun p hp => usable_eq_avail (hwf p hp)
  have key : ∃ p ∈ categoriesList c, p.2.available = true := by
    by_contra hall
    push_neg at hall
    rw [availCountOf, List.filter_eq_nil_iff.mpr (fun p hp => by simp [hall p hp])] at h
    simp at h
  obtain ⟨p, hp, hav⟩ := key
  have hup : usable p.2 = true := by rw [hu p hp, hav]
  have h2 := ite_weight_nonneg (usable c.accountMaturity) (3/20) (by norm_num)
  have h3 := ite_weight_nonneg (usable c.listingCompleteness) (3/20) (by norm_num)
  have h4 := ite_weight_nonneg (usable c.activityRecency) (1/10) (by norm_num)
  have h5 := ite_weight_nonneg (usable c.engagement) (1/10) (by norm_num)
  have h6 := ite_weight_nonneg (usable c.communityFeedback) (1/10) (by norm_num)
  have h7 := ite_weight_nonneg (usable c.behavioralRedFlags) (3/20) (by norm_num)
  have h1 := ite_weight_nonneg (usable c.verificationIdentity) (1/4) (by norm_num)
  rw [totalWeight_eq_bits, bitsTotalWeight]
  simp only [categoriesList, List.mem_cons, List.not_mem_nil, or_false] at hp
  rcases hp with rfl | rfl | rfl | rfl | rfl | rfl | rfl <;>
    simp only [hup, if_true] at * <;> linarith

theorem claim4_totalAvailable (c : Categories) (hwf : CatsWellFormed c) :
    totalWeightOf c =
      ((categoriesList c).map fun p => if p.2.available then categoryWeight p.1 else 0).sum := by
  rw [totalWeightOf]
  exact congrArg List.sum (List.map_congr_left fun p hp => by
    rw [usable_eq_avail (hwf p hp)])

/-- C4: with the fixed weight table (Verification and Identity 0.25,
Account Maturity 0.15, Listing Completeness 0.15, Activity and Recency
0.10, Engagement 0.10, Community Feedback 0.10, Behavioral Red Flags
0.15, summing to 1), whenever at least one category of a well-formed
category set is available, the total available weight is the sum of the
fixed weights of the available categories and is nonzero, the final
pulse score is the rounding of the sum over available categories of
score times the normalized weight fixedWeight / totalAvailableWeight,
and the output weight map reports 0 for every unavailable category
(rounded integer percentages for available ones). -/
theorem claim4_aggregator (c : Categories) (hwf : CatsWellFormed c)
    (havail : 0 < availCountOf c) :
    categoryWeight "verificationIdentity" = 1/4 ∧
    categoryWeight "accountMaturity" = 3/20 ∧
    categoryWeight "listingCompleteness" = 3/20 ∧
    categoryWeight "activityRecency" = 1/10 ∧
    categoryWeight "engagement" = 1/10 ∧
    categoryWeight "communityFeedback" = 1/10 ∧
    categoryWeight "behavioralRedFlags" = 3/20 ∧
    categoryWeight "verificationIdentity" + categoryWeight "accountMaturity" +
      categoryWeight "listingCompleteness" + categoryWeight "activityRecency" +
      categoryWeight "engagement" + categoryWeight "communityFeedback" +
      categoryWeight "behavioralRedFlags" = 1 ∧
    totalWeightOf c =
      ((categoriesList c).map fun p => if p.2.available then categoryWeight p.1 else 0).sum ∧
    totalWeightOf c ≠ 0 ∧
    (calculateFinalScore c).1 = jsRound (((categoriesList c).map fun p =>
      if p.2.available then p.2.score.getD 0 * (categoryWeight p.1 / totalWeightOf c)
      else 0).sum) ∧
    (calculateFinalScore c).2 = (categoriesList c).map fun p =>
      (p.1, if p.2.available then jsRound (categoryWeight p.1 / totalWeightOf c * 100) else 0) := by
  have hT : 0 < totalWeightOf c := totalWeight_pos_of_avail c hwf havail
  refine ⟨by simp [categoryWeight], by simp [categoryWeight], by simp [categoryWeight],
    by simp [categoryWeight], by simp [categoryWeight], by simp [categoryWeight],
    by simp [categoryWeight],
    by simp only [categoryWeight, String.reduceEq, if_true, if_false]; norm_num,
    claim4_totalAvailable c hwf, ne_of_gt hT, ?_, ?_⟩
  · rw [calculateFinalScore, if_neg (ne_of_gt hT)]
    exact congrArg jsRound (congrArg List.sum (List.map_congr_left fun p hp => by
      rw [usable_eq_avail (hwf p hp)]))
  · rw [calculateFinalScore, if_neg (ne_of_gt hT)]
    exact List.map_congr_left fun p hp => by rw [usable_eq_avail (hwf p hp)]

/-- Witness for C4 at a fully available category set. -/
theorem claim4_witness :
    categoryWeight "verificationIdentity" = 1/4 ∧
    categoryWeight "accountMaturity" = 3/20 ∧
    categoryWeight "listingCompleteness" = 3/20 ∧
    categoryWeight "activityRecency" = 1/10 ∧
    categoryWeight "engagement" = 1/10 ∧
    categoryWeight "communityFeedback" = 1/10 ∧
    categoryWeight "behavioralRedFlags" = 3/20 ∧
    categoryWeight "verificationIdentity" + categoryWeight "accountMaturity" +
      categoryWeight "listingCompleteness" + categoryWeight "activityRecency" +
      categoryWeight "engagement" + categoryWeight "communityFeedback" +
      categoryWeight "behavioralRedFlags" = 1 ∧
    totalWeightOf fullCats =
      ((categoriesList fullCats).map fun p => if p.2.available then categoryWeight p.1 else 0).sum ∧
    totalWeightOf fullCats ≠ 0 ∧
    (calculateFinalScore fullCats).1 = jsRound (((categoriesList fullCats).map fun p =>
      if p.2.available then p.2.score.getD 0 * (categoryWeight p.1 / totalWeightOf fullCats)
      else 0).sum) ∧
    (calculateFinalScore fullCats).2 = (categoriesList fullCats).map fun p =>
      (p.1, if p.2.available then jsRound (categoryWeight p.1 / totalWeightOf fullCats * 100) else 0) :=
  claim4_aggregator fullCats (by unfold CatsWellFormed; decide) (by decide)

/-- C5: for a seller with exactly one listing whose lowercased
title-plus-description text contains the lowercasing of
"URGENT, CASH ONLY, message me on WhatsApp" and which triggers no other
flag family, the Behavioral Red Flags score is
100 − 15 (urgency) − 20 (cash-only) − 20 (off-platform) = 45 and the
breakdown contains exactly the three matched red-flag entries, each
recording the 1-based listing index and its penalty. -/
theorem claim5_red_flags (l : Listing) (s : SellerData)
    (hphrase : strContains (fullTextOf l)
      (toLowerStr "URGENT, CASH ONLY, message me on WhatsApp") = true)
    (hfin : financialFlag (fullTextOf l) = false)
    (hfirst : firstComeFlag (fullTextOf l) = false)
    (hcaps : allCapsFlag l.title = false)
    (hemoji : emojiFlag (fullTextOf l) = false) :
    calculateBehavioralRedFlagsScore [l] s = ⟨some 45, true⟩ ∧
    calculateBehavioralRedFlagsBreakdown [l] =
      [⟨1, "Urgent language", none, 15⟩, ⟨1, "Cash only / suspicious payment", none, 20⟩,
       ⟨1, "Off-platform contact attempt", none, 20⟩] := by
  have hu : urgencyFlag (fullTextOf l) = true := by
    rw [urgencyFlag, strContains_trans hphrase (by decide)]
    rfl
  have hc : cashOnlyFlag (fullTextOf l) = true := by
    rw [cashOnlyFlag, strContains_trans hphrase (by decide)]
    rfl
  have ho : offPlatformFlag (fullTextOf l) = true := by
    rw [offPlatformFlag, strContains_trans hphrase (by decide)]
    rfl
  constructor
  · rw [calculateBehavioralRedFlagsScore, if_neg (by simp)]
    simp only [List.map_cons, List.map_nil, List.sum_cons, List.sum_nil, brfPenalty,
      hu, hc, ho, hfin, hfirst, hcaps, hemoji, if_true, Bool.false_eq_true, if_false]
    norm_num
  · rw [calculateBehavioralRedFlagsBreakdown, brfRedFlags]
    simp [brfFlags, hu, hc, ho, hfin, hfirst, hcaps, hemoji]

/-- Witness for C5 at a concrete flagged listing. -/
theorem claim5_witness :
    calculateBehavioralRedFlagsScore [flaggedListing] bareSeller = ⟨some 45, true⟩ ∧
    calculateBehavioralRedFlagsBreakdown [flaggedListing] =
      [⟨1, "Urgent language", none, 15⟩, ⟨1, "Cash only / suspicious payment", none, 20⟩,
       ⟨1, "Off-platform contact attempt", none, 20⟩] :=
  claim5_red_flags flaggedListing bareSeller (by decide) (by decide) (by decide) (by decide)
    (by decide)

/-- Counterexample to C6: a seller with average rating 4.8 — a positive
marketplace review signal — but zero reviews and no community feedback
is marked unavailable instead of receiving an available numeric score. -/
theorem claim6_counterexample :
    0 < ratedSeller.marketplaceData.avgRating ∧
    calculateCommunityFeedbackScore ratedSeller none = ⟨none, false⟩ := by
  constructor
  · norm_num [ratedSeller]
  · rw [calculateCommunityFeedbackScore, if_pos ⟨by decide, rfl⟩]

/-- C6 (amended): the Community Feedback scorer returns the unavailable
outcome exactly when the marketplace review count is zero and no
community feedback was supplied — irrespective of the average rating;
whenever the review count is at least 1 or feedback is supplied, it
returns an available numeric score. -/
theorem claim6_amended_availability (s : SellerData) (fb : Option VeribleFeedback) :
    ((calculateCommunityFeedbackScore s fb).available = false ↔
      (s.marketplaceData.totalReviews = 0 ∧ fb = none)) ∧
    (1 ≤ s.marketplaceData.totalReviews ∨ fb ≠ none →
      ∃ x, (calculateCommunityFeedbackScore s fb).score = some x) := by
  rw [calculateCommunityFeedbackScore]
  by_cases h : s.marketplaceData.totalReviews = 0 ∧ fb = none
  · rw [if_pos h]
    constructor
    · simp [h]
    · intro hor
      rcases hor with h1 | h1
      · exact absurd h.1 (by omega)
      · exact absurd h.2 h1
  · rw [if_neg h]
    constructor
    · simp [h]
    · intro _
      exact ⟨_, rfl⟩

/-- Witness for C6 (amended) at a one-review seller. -/
theorem claim6_witness :
    ((calculateCommunityFeedbackScore reviewedSeller none).available = false ↔
      (reviewedSeller.marketplaceData.totalReviews = 0 ∧
        (none : Option VeribleFeedback) = none)) ∧
    ∃ x, (calculateCommunityFeedbackScore reviewedSeller none).score = some x :=
  ⟨(claim6_amended_availability reviewedSeller none).1,
   (claim6_amended_availability reviewedSeller none).2 (Or.inl (by decide))⟩

/-- C7: the Listing Completeness scorer evaluates at most the first five
listings; per listing it awards title present 5 points, price present
and numeric-looking (non-empty price whose extraction marker `hasPrice`
is not false) 10 points, image count at least 3 gives 15 points (else at
least 1 gives 5), description length at least 100 characters gives 20
points; the category score is the rounding of min(100, avg/50*100) where
avg is the mean per-listing total; with zero listings the category is
unavailable. Listings are assumed consistent: the extraction-supplied
`descriptionLength` is the length of `description`. -/
theorem claim7_listing_completeness :
    (∀ s : SellerData, calculateListingCompletenessScore [] s = ⟨none, false⟩) ∧
    (∀ (s : SellerData) (ls : List Listing), ls ≠ [] →
      (∀ l ∈ ls, l.descriptionLength = l.description.length) →
      calculateListingCompletenessScore ls s = calculateListingCompletenessScore (ls.take 5) s ∧
      calculateListingCompletenessScore ls s =
        ⟨some ((jsRound (min 100 ((((ls.take 5).map specListingPoints).sum /
          (((ls.take 5).length : ℕ) : ℚ)) / 50 * 100)) : ℤ) : ℚ), true⟩) := by
  constructor
  · exact lc_empty
  · intro s ls hne hc
    have htake : ls.take 5 ≠ [] := by
      simp [List.take_eq_nil_iff, hne]
    have hmap : (ls.take 5).map listingScore = (ls.take 5).map specListingPoints := by
      apply List.map_congr_left
      intro l hl
      have hc' := hc l (List.take_subset 5 ls hl)
      have hdesc : 100 ≤ l.descriptionLength → l.description ≠ "" := by
        intro hlen hd
        rw [hc', hd] at hlen
        simp at hlen
      rw [listingScore, specListingPoints]
      have h4 : (if l.description ≠ "" ∧ 100 ≤ l.descriptionLength then (20:ℚ) else 0) =
          (if 100 ≤ l.descriptionLength then (20:ℚ) else 0) := by
        by_cases hlen : 100 ≤ l.descriptionLength
        · rw [if_pos hlen, if_pos ⟨hdesc hlen, hlen⟩]
        · rw [if_neg hlen, if_neg fun hh => hlen hh.2]
      rw [h4]
    constructor
    · simp only [calculateListingCompletenessScore]
      rw [if_neg hne, if_neg htake, List.take_take, min_self]
    · simp only [calculateListingCompletenessScore]
      rw [if_neg hne, hmap]

/-- Witness for C7 at a single complete listing. -/
theorem claim7_witness :
    calculateListingCompletenessScore [] bareSeller = ⟨none, false⟩ ∧
    calculateListingCompletenessScore [richListing] bareSeller =
      calculateListingCompletenessScore ([richListing].take 5) bareSeller ∧
    calculateListingCompletenessScore [richListing] bareSeller =
      ⟨some ((jsRound (min 100 (((([richListing].take 5).map specListingPoints).sum /
        ((([richListing].take 5).length : ℕ) : ℚ)) / 50 * 100)) : ℤ) : ℚ), true⟩ :=
  ⟨claim7_listing_completeness.1 bareSeller,
   claim7_listing_completeness.2 bareSeller [richListing] (by decide) (by decide)⟩

theorem cfBase_bounds (s : SellerData) : 0 ≤ cfBaseScore s ∧ cfBaseScore s ≤ 100 := by
  rw [cfBaseScore]
  split_ifs <;> norm_num

/-- C8: the Community Feedback base tier is (reviewCount at least 10 or
avgRating at least 4.5 gives 100; reviewCount at least 5 gives 70;
reviewCount at least 1 gives 40; else 0); when community feedback is
supplied, net = endorsements − flags adjusts the base: positive net adds
net*5 capped at 100, negative net subtracts |net|*10 (adds net*10)
floored at 0, zero net leaves the base; without feedback the base itself
is returned whenever at least one review exists. In particular,
2 endorsements and 5 flags on a seller with exactly one marketplace
review (base 40) yield max(0, 40 − 30) = 10. -/
theorem claim8_community_feedback :
    (∀ (s : SellerData) (fb : VeribleFeedback),
      calculateCommunityFeedbackScore s (some fb) =
        ⟨some (if 0 < cfNet fb then min 100 (cfBaseScore s + (cfNet fb : ℚ) * 5)
               else if cfNet fb < 0 then max 0 (cfBaseScore s + (cfNet fb : ℚ) * 10)
               else cfBaseScore s), true⟩) ∧
    (∀ s : SellerData, 1 ≤ s.marketplaceData.totalReviews →
      calculateCommunityFeedbackScore s none = ⟨some (cfBaseScore s), true⟩) ∧
    calculateCommunityFeedbackScore reviewedSeller (some ⟨2, 5⟩) = ⟨some 10, true⟩ ∧
    cfBaseScore reviewedSeller = 40 ∧ cfNet ⟨2, 5⟩ = -3 := by
  refine ⟨fun s fb => ?_, fun s hrev => ?_, ?_, ?_, by decide⟩
  · rcases cfBase_bounds s with ⟨hb0, hb1⟩
    rw [calculateCommunityFeedbackScore, if_neg (by simp)]
    simp only [cfAdjustedScore]
    split_ifs with h1 h2
    · have hy : (0:ℚ) ≤ cfBaseScore s + (cfNet fb : ℚ) * 5 := by
        have : (0:ℚ) ≤ (cfNet fb : ℚ) := by exact_mod_cast le_of_lt h1
        nlinarith
      rw [max_eq_right (le_min (by norm_num) hy), min_eq_right (min_le_left _ _)]
    · have hy : max 0 (cfBaseScore s + (cfNet fb : ℚ) * 10) ≤ 100 := by
        have hc : (cfNet fb : ℚ) ≤ 0 := by exact_mod_cast le_of_lt h2
        have hmul : (cfNet fb : ℚ) * 10 ≤ 0 := by nlinarith
        exact max_le (by norm_num) (by linarith)
      rw [max_eq_right (le_max_left _ _), min_eq_right hy]
    · rw [max_eq_right hb0, min_eq_right hb1]
  · rw [calculateCommunityFeedbackScore, if_neg (fun h => absurd h.1 (by omega))]
    rcases cfBase_bounds s with ⟨hb0, hb1⟩
    simp only [cfAdjustedScore]
    rw [max_eq_right hb0, min_eq_right hb1]
  · rw [calculateCommunityFeedbackScore, if_neg (by simp [reviewedSeller])]
    norm_num [cfAdjustedScore, cfNet, cfBaseScore, reviewedSeller]
  · norm_num [cfBaseScore, reviewedSeller]

/-- Witness for C8: both feedback branches at the one-review seller. -/
theorem claim8_witness :
    calculateCommunityFeedbackScore reviewedSeller (some ⟨2, 5⟩) =
      ⟨some (if 0 < cfNet ⟨2, 5⟩ then
               min 100 (cfBaseScore reviewedSeller + (cfNet ⟨2, 5⟩ : ℚ) * 5)
             else if cfNet ⟨2, 5⟩ < 0 then
               max 0 (cfBaseScore reviewedSeller + (cfNet ⟨2, 5⟩ : ℚ) * 10)
             else cfBaseScore reviewedSeller), true⟩ ∧
    calculateCommunityFeedbackScore reviewedSeller none =
      ⟨some (cfBaseScore reviewedSeller), true⟩ :=
  ⟨claim8_community_feedback.1 reviewedSeller ⟨2, 5⟩,
   claim8_community_feedback.2.1 reviewedSeller (by decide)⟩

theorem consistency_char (s : SellerData) (ls : List Listing) (fb : Option VeribleFeedback) :
    consistencyOf s (mkCategories s ls fb) =
      if hasBusinessIndicators s = true ∧
          (calculateVerificationIdentityScore s).score = some 0
      then 7/10 else 1 := by
  rw [consistencyOf]
  simp only [mkCategories, calculateVerificationIdentityScore, scoreGtZero]
  have hv : (0:ℚ) ≤ min 100 (viLocationScore s) :=
    le_min (by norm_num) (viLocationScore_nonneg s)
  rcases hb : hasBusinessIndicators s with _ | _
  · simp
  · simp only [Bool.true_and, true_and, Option.some.injEq]
    by_cases h0 : min 100 (viLocationScore s) = 0
    · simp [h0]
    · have hpos : (0:ℚ) < min 100 (viLocationScore s) := lt_of_le_of_ne hv (Ne.symm h0)
      simp [h0, hpos]

/-- C9: for every input, the engine's confidence metrics use
coverage = availableCategoryCount / 7; recency 1.0 for last-seen at most
30 days, 0.6 for at most 60 days, 0.3 otherwise, 0.6 when last-seen is
unknown but at least one listing exists and 0.3 by default; consistency
1.0, dropped to 0.7 when the biography contains business-style language
while the Verification and Identity score is 0; and the reported
confidence is 0.5*coverage + 0.3*recency + 0.2*consistency rounded to
two decimals (coverage is reported rounded to two decimals as well). -/
theorem claim9_confidence (s : SellerData) (ls : List Listing) (fb : Option VeribleFeedback) :
    (calculateConfidence s ls (mkCategories s ls fb)).confidence =
      round2 (1/2 * ((availCountOf (mkCategories s ls fb) : ℚ) / 7) +
        3/10 * (match s.marketplaceData.lastSeen with
          | some days => if days ≤ 30 then 1 else if days ≤ 60 then (3:ℚ)/5 else 3/10
          | none => if ls ≠ [] then (3:ℚ)/5 else 3/10) +
        1/5 * (if hasBusinessIndicators s = true ∧
                  (calculateVerificationIdentityScore s).score = some 0
               then (7:ℚ)/10 else 1)) ∧
    (calculateConfidence s ls (mkCategories s ls fb)).coverage =
      round2 ((availCountOf (mkCategories s ls fb) : ℚ) / 7) := by
  have hlen : (((categoriesList (mkCategories s ls fb)).length : ℕ) : ℚ) = 7 := by
    simp [categoriesList]
  rw [calculateConfidence]
  dsimp only
  rw [hlen, consistency_char, recencyOf.eq_def]
  exact ⟨rfl, rfl⟩

/-- Witness for C9 at a concrete input. -/
theorem claim9_witness :
    (calculateConfidence bareSeller [] (mkCategories bareSeller [] none)).confidence =
      round2 (1/2 * ((availCountOf (mkCategories bareSeller [] none) : ℚ) / 7) +
        3/10 * (match bareSeller.marketplaceData.lastSeen with
          | some days => if days ≤ 30 then 1 else if days ≤ 60 then (3:ℚ)/5 else 3/10
          | none => if ([] : List Listing) ≠ [] then (3:ℚ)/5 else 3/10) +
        1/5 * (if hasBusinessIndicators bareSeller = true ∧
                  (calculateVerificationIdentityScore bareSeller).score = some 0
               then (7:ℚ)/10 else 1)) ∧
    (calculateConfidence bareSeller [] (mkCategories bareSeller [] none)).coverage =
      round2 ((availCountOf (mkCategories bareSeller [] none) : ℚ) / 7) :=
  claim9_confidence bareSeller [] none

theorem availCount_ge_one (s : SellerData) (ls : List Listing) (fb : Option VeribleFeedback) :
    1 ≤ availCountOf (mkCategories s ls fb) := by
  rw [availCountOf]
  simp only [categoriesList, mkCategories, List.filter_cons, vi_avail, if_true,
    List.length_cons]
  omega

/-- C10: the Verification and Identity scorer always returns an available,
non-null score; consequently at least one category is always available,
the computed coverage availableCount/7 never falls below 1/7, the total
available weight is at least 0.25, and the degenerate zero-total-weight
branch of the aggregator (final score 0, empty weight map) is
unreachable on the category sets `calculatePulseScore` builds, since its
guard `totalWeightOf c = 0` is always false there. -/
theorem claim10_vi_always_available (s : SellerData) (ls : List Listing)
    (fb : Option VeribleFeedback) :
    (calculateVerificationIdentityScore s).available = true ∧
    (calculateVerificationIdentityScore s).score ≠ none ∧
    1 ≤ availCountOf (mkCategories s ls fb) ∧
    (1 : ℚ)/7 ≤ (availCountOf (mkCategories s ls fb) : ℚ) / 7 ∧
    1/4 ≤ totalWeightOf (mkCategories s ls fb) ∧
    totalWeightOf (mkCategories s ls fb) ≠ 0 := by
  have h1 := availCount_ge_one s ls fb
  have hT : 1/4 ≤ totalWeightOf (mkCategories s ls fb) := totalWeight_ge_vi _ (usable_vi s)
  refine ⟨rfl, by simp [calculateVerificationIdentityScore], h1, ?_, hT, by linarith⟩
  have h1q : (1:ℚ) ≤ (availCountOf (mkCategories s ls fb) : ℚ) := by exact_mod_cast h1
  gcongr

/-- Witness for C10 at a concrete input. -/
theorem claim10_witness :
    (calculateVerificationIdentityScore bareSeller).available = true ∧
    (calculateVerificationIdentityScore bareSeller).score ≠ none ∧
    1 ≤ availCountOf (mkCategories bareSeller [] none) ∧
    (1 : ℚ)/7 ≤ (availCountOf (mkCategories bareSeller [] none) : ℚ) / 7 ∧
    1/4 ≤ totalWeightOf (mkCategories bareSeller [] none) ∧
    totalWeightOf (mkCategories bareSeller [] none) ≠ 0 :=
  claim10_vi_always_available bareSeller [] none

end PulseScoring
